import Mathlib

/-!
Verification of the request/buffer pooling engine of `libavcodec/v4l2_req_media.c`
(rpi-ffmpeg).  The C functions relevant to the properties under study are embedded
shallowly: pure computations become Lean functions on `Nat`; the stateful queue and
pool operations become explicit state-passing functions on small structures, with
kernel ioctl outcomes injected as boolean parameters (the ioctls themselves are
external collaborators).  `size_t` values are modelled as `Nat`; the C code under
study never relies on unsigned wrap-around in the regions we reason about, and the
theorems restrict to ranges where the C `int` shifts in `round_up_size` do not
overflow.
-/

namespace V4l2ReqMedia

/-! ## `log2_size` / `round_up_size` (lines 50-79) -/

/-- One stage of the `log2_size` cascade.  The C test `x & ~0xffffu… != 0` on an
unsigned value is equivalent to `2 ^ w ≤ x` (some bit at position ≥ w is set), and
`x >>= w` is `x >>> w`.  Each stage of the C function is one application with
`w = 16, 8, 4, 2`. -/
def log2_step (w : Nat) (p : Nat × Nat) : Nat × Nat :=
  if 2 ^ w ≤ p.2 then (p.1 + w, p.2 >>> w) else p

/-- `static unsigned int log2_size(size_t x)` — floor(log2(x)) for x < 2^32. -/
def log2_size (x : Nat) : Nat :=
  let p := log2_step 16 (0, x)
  let p := log2_step 8 p
  let p := log2_step 4 p
  let p := log2_step 2 p
  if 2 ≤ p.2 then p.1 + 1 else p.1

/-- `static size_t round_up_size(const size_t x)`:
`n = x < 256 ? 8 : log2_size(x) - 1; return x >= (3 << n) ? 4 << n : (3 << n);` -/
def round_up_size (x : Nat) : Nat :=
  let n := if x < 256 then 8 else log2_size x - 1
  if 3 <<< n ≤ x then 4 <<< n else 3 <<< n

/-- Membership in the `{3·2ⁿ, 4·2ⁿ}` size-class sequence the spec describes. -/
def isSizeClass (b : Nat) : Prop := ∃ n : Nat, b = 3 * 2 ^ n ∨ b = 4 * 2 ^ n

/-! ## Common enums and entry model -/

/-- `MediaBufsStatus` (public result type of the controller API). -/
inductive MediaBufsStatus
  | SUCCESS
  | ERROR_OPERATION_FAILED
  | ERROR_DECODING_ERROR
  | ERROR_UNSUPPORTED_BUFFERTYPE
  | ERROR_ALLOCATION_FAILED
deriving DecidableEq

/-- `enum qent_status` (line 312). -/
inductive qent_status
  | NEW
  | PENDING
  | WAITING
  | DONE
  | ERROR
  | IMPORT
deriving DecidableEq

/-- `VIDEO_MAX_PLANES` from `linux/videodev2.h`. -/
def VIDEO_MAX_PLANES : Nat := 8

/-- The fields of a `struct dmabuf_h` that this module reads/writes through the
dmabuf accessors (`dmabuf_fd`, `dmabuf_size`, `dmabuf_len`, `dmabuf_len_set`). -/
structure dmabuf_h where
  fd : Int
  size : Nat
  len : Nat
deriving DecidableEq

/-- `struct timeval` as used for `qent_base.timestamp`. -/
structure timeval where
  tv_sec : Int
  tv_usec : Int
deriving DecidableEq

/-- `struct qent_base` (line 321).  The intrusive `next`/`prev` links are
represented by the position of the entry in the explicit `List`s of its
`buf_pool`; `id` stands for the object's address, i.e. its identity. -/
structure qent_base where
  id : Nat
  status : qent_status
  index : Nat
  dh : List (Option dmabuf_h)
  timestamp : timeval
deriving DecidableEq

/-- `struct qent_dst` (line 335): base + wait flag + weak link to the owning
controller.  `mbc_wl_alive` models whether `ff_weak_link_lock` on `mbc_wl`
still succeeds (controller not yet torn down). -/
structure qent_dst where
  base : qent_base
  waiting : Bool
  mbc_wl_alive : Bool
deriving DecidableEq

/-! ## Buffer queue (`struct buf_pool`, lines 345-539) -/

/-- `struct buf_pool`: free list, in-use list, and the counting semaphore that
mirrors the free list (`free_sem`).  Lists are kept head-first, matching the C
`head`/`tail` pointers with append-at-tail. -/
structure buf_pool where
  free_sem : Nat
  free : List qent_base
  inuse : List qent_base
deriving DecidableEq

/-- The per-entry state clearing performed by `queue_put_free` (lines 469-473):
timestamp zeroed, then `dmabuf_len_set(dh[i], 0)` for `i` from 0 while
`i < VIDEO_MAX_PLANES && be->dh[i]` — i.e. the populated plane slots scanned up
to the first NULL slot. -/
def clear_lens : List (Option dmabuf_h) → List (Option dmabuf_h)
  | [] => []
  | none :: rest => none :: rest
  | some d :: rest => some { d with len := 0 } :: clear_lens rest

/-- The entry as stored by `queue_put_free`. -/
def queue_put_free_ent (be : qent_base) : qent_base :=
  { be with timestamp := ⟨0, 0⟩, dh := clear_lens be.dh }

/-- `queue_put_free` (line 464): clear state vars, `bq_put_free` (append at the
free-list tail), `sem_post`. -/
def queue_put_free (bp : buf_pool) (be : qent_base) : buf_pool :=
  { bp with free := bp.free ++ [queue_put_free_ent be], free_sem := bp.free_sem + 1 }

/-- `queue_put_inuse` (line 484): append at the in-use tail, `status = QENT_WAITING`.
(The C function returns immediately when passed NULL; we model non-NULL calls.) -/
def queue_put_inuse (bp : buf_pool) (be : qent_base) : buf_pool :=
  { bp with inuse := bp.inuse ++ [{ be with status := .WAITING }] }

/-- The fd `queue_find_extract_fd` compares against: `dmabuf_fd(be->dh[0])`,
modelled as `none` when the primary plane slot is unpopulated. -/
def primary_fd (be : qent_base) : Option Int :=
  (be.dh.headD none).map dmabuf_h.fd

/-- The scan of `queue_find_extract_fd` (lines 524-539) over the in-use list:
front-to-back, the first entry whose primary plane fd matches is unlinked
(`bq_extract_inuse`) and returned; no match returns NULL and leaves the list
unchanged. -/
def find_extract_fd : List qent_base → Int → Option qent_base × List qent_base
  | [], _ => (none, [])
  | be :: rest, fd =>
    if primary_fd be = some fd then
      (some be, rest)
    else
      let r := find_extract_fd rest fd
      (r.1, be :: r.2)

/-- `queue_find_extract_fd` on a `buf_pool`. -/
def queue_find_extract_fd (bp : buf_pool) (fd : Int) : Option qent_base × buf_pool :=
  let r := find_extract_fd bp.inuse fd
  (r.1, { bp with inuse := r.2 })

/-! ## Destination-entry operations -/

/-- `qent_dst_dmabuf` (line 789):
`plane >= sizeof(be->dh)/sizeof(be->dh[0]) ? NULL : be->dh[plane]`. -/
def qent_dst_dmabuf (be_dst : qent_dst) (plane : Nat) : Option dmabuf_h :=
  if VIDEO_MAX_PLANES ≤ plane then none else be_dst.base.dh.getD plane none

/-- The result computed by `qent_dst_wait` (line 972) once the wait loop has
exited, as a function of the entry status it reads under the lock. -/
def qent_dst_wait_result (estat : qent_status) : MediaBufsStatus :=
  if estat = .DONE then .SUCCESS
  else if estat = .ERROR then .ERROR_DECODING_ERROR
  else .ERROR_OPERATION_FAILED

/-- `qe_dst_waiting` (line 681): returns the previous wait flag and sets it. -/
def qe_dst_waiting (dst_be : qent_dst) : Bool × qent_dst :=
  (dst_be.waiting, { dst_be with waiting := true })

/-- `qe_dst_done` (line 673): clears the wait flag and broadcasts the condvar
(waking any waiter). -/
def qe_dst_done (dst_be : qent_dst) : qent_dst :=
  { dst_be with waiting := false }

/-- `qent_dst_delete` / `qent_dst_free` outcome (lines 1022-1049). -/
structure qent_dst_free_result where
  pbe_dst : Option qent_dst
  ctl_dst : buf_pool
  deleted : Bool
deriving DecidableEq

/-- `qent_dst_free` (line 1034): NULL the caller's pointer; if the weak link to
the controller can be locked, `queue_put_free` onto the controller's dst queue,
else `qent_dst_delete` the entry outright without touching the controller. -/
def qent_dst_free (pbe_dst : Option qent_dst) (ctl_dst : buf_pool) : qent_dst_free_result :=
  match pbe_dst with
  | none => ⟨none, ctl_dst, false⟩
  | some be_dst =>
    if be_dst.mbc_wl_alive then
      ⟨none, queue_put_free ctl_dst be_dst.base, false⟩
    else
      ⟨none, ctl_dst, true⟩

/-! ## Stream on / off (lines 1267-1306) -/

/-- Buffer direction of a `set_stream` call (`mbc->src_fmt.type` vs
`mbc->dst_fmt.type`). -/
inductive StreamDir
  | src
  | dst
deriving DecidableEq

/-- Outcome of `mediabufs_stream_on` / `mediabufs_stream_off`: the sequence of
`set_stream(dir, enable)` ioctls issued, the resulting `mbc->stream_on` flag and
the returned status.  Success/failure of each `set_stream` is injected through
the `…_ok` booleans. -/
structure stream_result where
  calls : List (StreamDir × Bool)
  stream_on : Bool
  status : MediaBufsStatus
deriving DecidableEq

/-- `mediabufs_stream_on` (line 1267): no-op when already on; enable src, then
dst; on dst failure roll src back off and fail. -/
def mediabufs_stream_on (stream_on src_on_ok dst_on_ok : Bool) : stream_result :=
  if stream_on then ⟨[], true, .SUCCESS⟩
  else if ¬src_on_ok then ⟨[(.src, true)], false, .ERROR_OPERATION_FAILED⟩
  else if ¬dst_on_ok then
    ⟨[(.src, true), (.dst, true), (.src, false)], false, .ERROR_OPERATION_FAILED⟩
  else ⟨[(.src, true), (.dst, true)], true, .SUCCESS⟩

/-- `mediabufs_stream_off` (line 1287): no-op when the flag is off; otherwise
disable src then dst unconditionally, accumulating the failure status. -/
def mediabufs_stream_off (stream_on src_off_ok dst_off_ok : Bool) : stream_result :=
  if ¬stream_on then ⟨[], stream_on, .SUCCESS⟩
  else
    let status1 := if ¬src_off_ok then MediaBufsStatus.ERROR_OPERATION_FAILED
                   else MediaBufsStatus.SUCCESS
    let status2 := if ¬dst_off_ok then MediaBufsStatus.ERROR_OPERATION_FAILED
                   else status1
    ⟨[(.src, false), (.dst, false)], false, status2⟩

/-! ## `fmt_set` (lines 888-933) -/

/-- The pixel-format fields the `fmt_set` acceptance check reads back from the
driver (`fmt.pix_mp` or `fmt.pix` according to the buffer type). -/
structure v4l2_pix_resp where
  width : Nat
  height : Nat
  pixelformat : Nat
deriving DecidableEq

/-- `fmt_set`: build the request, issue `VIDIOC_S_FMT` (whose success and
driver-filled response are injected as `ioctl_ok` / `resp`), then treat anything
where we did not get at least what we asked for as
`MEDIABUFS_ERROR_UNSUPPORTED_BUFFERTYPE`.  Returns the status together with the
content the caller's `*fmt` holds afterwards. -/
def fmt_set (multiplanar ioctl_ok : Bool) (pixfmt width height : Nat)
    (resp : v4l2_pix_resp) : MediaBufsStatus × v4l2_pix_resp :=
  if ¬ioctl_ok then (.ERROR_OPERATION_FAILED, ⟨width, height, pixfmt⟩)
  else if multiplanar then
    if resp.width < width ∨ resp.height < height ∨ resp.pixelformat ≠ pixfmt then
      (.ERROR_UNSUPPORTED_BUFFERTYPE, resp)
    else (.SUCCESS, resp)
  else
    if resp.width < width ∨ resp.height < height ∨ resp.pixelformat ≠ pixfmt then
      (.ERROR_UNSUPPORTED_BUFFERTYPE, resp)
    else (.SUCCESS, resp)

/-! ## Request pool (lines 81-307)

`media_pool_new(path, pq, n)` builds a free chain of `n` request handles and a
semaphore initialised to `n`; handles are modelled by the numbers `0..n-1`
(their distinct fds).  `media_request_get` pops the head of the free chain
(after `do_wait` on the semaphore, so it fires only when the chain is
non-empty); `media_request_done` — reached from poll completion or from
`media_request_abort` — pushes the handle back on the chain head.  `in_flight`
is the ghost complement: handles held by a caller or submitted and not yet
reclaimed. -/

/-- `struct media_pool` state: free chain plus the ghost in-flight set. -/
structure media_pool_state where
  free_reqs : List Nat
  in_flight : List Nat
deriving DecidableEq

/-- One quiescent-point transition of the pool:
`get` = `media_request_get` popping the free head;
`done` = `media_request_done` (poll completion or `media_request_abort`)
returning an in-flight handle to the chain head. -/
inductive pool_step : media_pool_state → media_pool_state → Prop
  | get (r : Nat) (rest fl : List Nat) :
      pool_step ⟨r :: rest, fl⟩ ⟨rest, r :: fl⟩
  | done (r : Nat) (free fl1 fl2 : List Nat) :
      pool_step ⟨free, fl1 ++ r :: fl2⟩ ⟨r :: free, fl1 ++ fl2⟩

/-- States reachable from the pool as `media_pool_new` creates it with `n`
handles. -/
def pool_reachable (n : Nat) (s : media_pool_state) : Prop :=
  Relation.ReflTransGen pool_step ⟨List.range n, []⟩ s

/-! ## `mediabufs_start_request` (lines 801-856) -/

/-- The controller state `mediabufs_start_request` touches: the request pool's
free chain, both buffer queues, the polling flag and the reference count. -/
structure mbc_state where
  pool_free : List Nat
  src_q : buf_pool
  dst_q : buf_pool
  polling : Bool
  ref_count : Int
deriving DecidableEq

/-- `media_request_abort` (line 216): NULL request is a no-op; otherwise
`media_request_done` reinits the request and pushes it onto the pool's free
chain head (and posts the semaphore). -/
def media_request_abort (pool_free : List Nat) : Option Nat → List Nat
  | none => pool_free
  | some r => r :: pool_free

/-- Result of `mediabufs_start_request`: the caller's two consumed pointers,
the controller state afterwards, the destination entry's fields afterwards, and
the returned status. -/
structure start_request_result where
  pmreq : Option Nat
  psrc_be : Option qent_base
  st : mbc_state
  dst_be : Option qent_dst
  status : MediaBufsStatus
deriving DecidableEq

/-- The `fail1:` label of `mediabufs_start_request` (lines 846-855):
`media_request_abort(&mreq)`, `queue_put_free` the src entry if any, and
`qe_dst_done(dst_be)` if a destination was supplied.  Note that the destination
queue (`st.dst_q`) is NOT touched: a destination entry already queued stays on
the in-use list (the code's own `TODO` at line 851 records this). -/
def start_request_fail (st : mbc_state) (mreq : Option Nat)
    (src_be : Option qent_base) (dst_be : Option qent_dst) : start_request_result :=
  { pmreq := none
    psrc_be := none
    st := { st with
            pool_free := media_request_abort st.pool_free mreq
            src_q := match src_be with
                     | none => st.src_q
                     | some s => queue_put_free st.src_q s }
    dst_be := dst_be.map qe_dst_done
    status := .ERROR_OPERATION_FAILED }

/-- `qe_v4l2_queue` side effect on a destination entry before `VIDIOC_QBUF`
(lines 592-594 / 605-606): every populated plane length is cleared (dst case).
We reuse `clear_lens`, which zeroes the populated prefix exactly as the loop
does. -/
def qe_v4l2_queue_dst_ent (d : qent_dst) : qent_dst :=
  { d with base := { d.base with dh := clear_lens d.base.dh,
                                 timestamp := ⟨0, 0⟩ } }

/-- The tail of `mediabufs_start_request` after the destination phase: queue the
source buffer (failure injected by `src_q_fail`), put it in-use, arm polling if
needed taking an extra controller reference, then `media_request_start`
(failure injected by `start_fail`). -/
def start_request_src_phase (st : mbc_state) (mreq : Option Nat)
    (src_be : qent_base) (dst_be : Option qent_dst)
    (src_q_fail start_fail : Bool) : start_request_result :=
  if src_q_fail then
    start_request_fail st mreq (some src_be) dst_be
  else
    let st1 := { st with src_q := queue_put_inuse st.src_q src_be }
    let st2 :=
      if ¬st1.polling ∧ (st1.src_q.inuse ≠ [] ∨ st1.dst_q.inuse ≠ []) then
        { st1 with polling := true, ref_count := st1.ref_count + 1 }
      else st1
    { pmreq := none
      psrc_be := none
      st := st2
      dst_be := dst_be
      status := if start_fail then .ERROR_OPERATION_FAILED else .SUCCESS }

/-- `mediabufs_start_request` (line 801).  `pmreq`/`psrc_be` are the caller's
in-out pointers (always NULLed); `dst_q_fail`, `src_q_fail` and `start_fail`
inject the outcomes of the two `qe_v4l2_queue` ioctls and of
`media_request_start`. -/
def mediabufs_start_request (st : mbc_state)
    (pmreq : Option Nat) (psrc_be : Option qent_base) (dst_be : Option qent_dst)
    (dst_q_fail src_q_fail start_fail : Bool) : start_request_result :=
  let mreq := pmreq
  match psrc_be with
  | none => start_request_fail st mreq none dst_be
  | some src_be =>
    match dst_be with
    | none => start_request_src_phase st mreq src_be none src_q_fail start_fail
    | some d0 =>
      let w := qe_dst_waiting d0
      if w.1 then
        start_request_fail st mreq (some src_be) (some w.2)
      else
        let d1 := qe_v4l2_queue_dst_ent w.2
        if dst_q_fail then
          start_request_fail st mreq (some src_be) (some d1)
        else
          let d2 := { d1 with base := { d1.base with status := .WAITING } }
          let st1 := { st with dst_q := queue_put_inuse st.dst_q d1.base }
          start_request_src_phase st1 mreq src_be (some d2) src_q_fail start_fail

/-! ## Auxiliary predicates used by the theorems -/

/-- A plane slot either unpopulated or with recorded length 0. -/
def plane_len_zero : Option dmabuf_h → Bool
  | none => true
  | some d => d.len == 0

/-- The populated plane slots of `dh` form a contiguous block from index 0
(no populated slot after a NULL slot).  This is the ambient invariant of
`qent_base.dh` — planes are filled by `qe_alloc_from_fmt` from index 0 up —
and exactly the region the `queue_put_free` clearing loop covers. -/
def no_plane_gap : List (Option dmabuf_h) → Bool
  | [] => true
  | some _ :: rest => no_plane_gap rest
  | none :: rest => rest.all Option.isNone

/-- The "recycled" state `queue_put_free` establishes: zero timestamp, zero
recorded length on every populated plane. -/
def qent_cleared (e : qent_base) : Prop :=
  e.timestamp = ⟨0, 0⟩ ∧ ∀ od ∈ e.dh, plane_len_zero od = true

/-! # Theorems -/

/-! ## C1: `round_up_size` -/

theorem log2_step_inv (w : Nat) (p : Nat × Nat) (hx : 0 < p.2) (hb : p.2 < 2 ^ (2 * w)) :
    0 < (log2_step w p).2 ∧ (log2_step w p).2 < 2 ^ w ∧
    (log2_step w p).1 + Nat.log 2 (log2_step w p).2 = p.1 + Nat.log 2 p.2 := by
  obtain ⟨n, x⟩ := p
  simp only [log2_step]
  by_cases h : 2 ^ w ≤ x
  · rw [if_pos h]
    simp only [Nat.shiftRight_eq_div_pow]
    have hw2 : (0:Nat) < 2 ^ w := Nat.pos_pow_of_pos w (by norm_num)
    have hdiv_pos : 0 < x / 2 ^ w := Nat.div_pos h hw2
    refine ⟨hdiv_pos, ?_, ?_⟩
    · rw [Nat.div_lt_iff_lt_mul hw2, ← pow_add]
      have : w + w = 2 * w := by omega
      rw [this]
      exact hb
    · have hwlog : w ≤ Nat.log 2 x :=
        (Nat.pow_le_iff_le_log one_lt_two (by omega)).mp h
      have h1 : 2 ^ Nat.log 2 x ≤ x := Nat.pow_log_le_self 2 (by omega)
      have h2 : x < 2 ^ (Nat.log 2 x + 1) := Nat.lt_pow_succ_log_self one_lt_two x
      have e1 : 2 ^ (Nat.log 2 x - w) ≤ x / 2 ^ w := by
        rw [Nat.le_div_iff_mul_le hw2, ← pow_add]
        have : Nat.log 2 x - w + w = Nat.log 2 x := by omega
        rw [this]
        exact h1
      have e2 : x / 2 ^ w < 2 ^ (Nat.log 2 x - w + 1) := by
        rw [Nat.div_lt_iff_lt_mul hw2, ← pow_add]
        have : Nat.log 2 x - w + 1 + w = Nat.log 2 x + 1 := by omega
        rw [this]
        exact h2
      rw [Nat.log_eq_of_pow_le_of_lt_pow e1 e2]
      omega
  · rw [if_neg h]
    exact ⟨hx, by omega, rfl⟩

theorem log2_size_eq_log {x : Nat} (hx : 0 < x) (hb : x < 2 ^ 32) :
    log2_size x = Nat.log 2 x := by
  have h1 := log2_step_inv 16 (0, x) hx (by simpa using hb)
  have h2 := log2_step_inv 8 (log2_step 16 (0, x)) h1.1 (by simpa using h1.2.1)
  have h3 := log2_step_inv 4 (log2_step 8 (log2_step 16 (0, x))) h2.1 (by simpa using h2.2.1)
  have h4 := log2_step_inv 2 (log2_step 4 (log2_step 8 (log2_step 16 (0, x)))) h3.1
    (by simpa using h3.2.1)
  simp only [log2_size]
  set q := log2_step 2 (log2_step 4 (log2_step 8 (log2_step 16 (0, x)))) with hq
  have hfin : q.1 + Nat.log 2 q.2 = Nat.log 2 x := by
    rw [h4.2.2, h3.2.2, h2.2.2, h1.2.2]
    simp
  have hq2 : q.2 = 1 ∨ q.2 = 2 ∨ q.2 = 3 := by
    have := h4.1
    have := h4.2.1
    omega
  rcases hq2 with h | h | h
  · rw [h] at hfin ⊢
    rw [Nat.log_one_right] at hfin
    rw [if_neg (by omega)]
    omega
  · rw [h] at hfin ⊢
    have hl : Nat.log 2 2 = 1 :=
      Nat.log_eq_of_pow_le_of_lt_pow (by norm_num) (by norm_num)
    rw [hl] at hfin
    rw [if_pos (by omega)]
    omega
  · rw [h] at hfin ⊢
    have hl : Nat.log 2 3 = 1 :=
      Nat.log_eq_of_pow_le_of_lt_pow (by norm_num) (by norm_num)
    rw [hl] at hfin
    rw [if_pos (by omega)]
    omega

/-- C1 [corrected]: the claimed examples `100→256` and `768→768` are false on the
code: `round_up_size(100) = 768` (for `x < 256` the code picks `n = 8`, giving
bucket `3·2⁸ = 768`) and `round_up_size(768) = 1024` (the `x >= (3 << n)` test
bumps an exact bucket up to the next one). -/
theorem C1_counterexample :
    round_up_size 100 = 768 ∧ round_up_size 100 ≠ 256 ∧
    round_up_size 768 = 1024 ∧ round_up_size 768 ≠ 768 := by
  refine ⟨by decide, by decide, ?_, ?_⟩ <;> decide

/-- C1 [amended]: for every requested size `s` in the range where the C `int`
shifts cannot overflow (`s < 2³⁰`), `round_up_size s` returns a bucket `b` with
`b ≥ s` and `b ≥ 256`; sizes below 256 all round to the fixed bucket 768 (not
256), and for `s ≥ 256` the result is the smallest member of the
`{3·2ⁿ, 4·2ⁿ}` sequence STRICTLY greater than `s` (so `257→384`, `769→1024`,
but `100→768` and `768→1024`). -/
theorem C1_round_up_size (s : Nat) (hs : s < 2 ^ 30) :
    (s < 256 → round_up_size s = 768) ∧
    (256 ≤ s →
      s < round_up_size s ∧ 256 ≤ round_up_size s ∧ isSizeClass (round_up_size s) ∧
      ∀ c, isSizeClass c → s < c → round_up_size s ≤ c) := by
  constructor
  · intro h
    have hcond : ¬ (3 * 2 ^ 8 ≤ s) := by norm_num; omega
    simp only [round_up_size, if_pos h, Nat.shiftLeft_eq, if_neg hcond]
  · intro h256
    have hx : 0 < s := by omega
    have hlog := log2_size_eq_log hx (lt_trans hs (by norm_num))
    have hk8 : 8 ≤ Nat.log 2 s := by
      refine (Nat.pow_le_iff_le_log one_lt_two (by omega)).mp ?_
      norm_num
      omega
    have hk29 : Nat.log 2 s ≤ 29 := by
      have := Nat.log_lt_of_lt_pow (y := s) (by omega) hs
      omega
    obtain ⟨K, hK⟩ : ∃ K, Nat.log 2 s = K + 1 := ⟨Nat.log 2 s - 1, by omega⟩
    have hK7 : 7 ≤ K := by omega
    have hpow_le : 2 * 2 ^ K ≤ s := by
      have := Nat.pow_log_le_self 2 (show s ≠ 0 by omega)
      rw [hK, pow_succ] at this
      omega
    have hlt : s < 4 * 2 ^ K := by
      have := Nat.lt_pow_succ_log_self one_lt_two s
      rw [hK] at this
      have e : 2 ^ (K + 1 + 1) = 4 * 2 ^ K := by ring
      omega
    have hn : (if s < 256 then 8 else log2_size s - 1) = K := by
      rw [if_neg (by omega), hlog, hK]
      omega
    have h128 : 128 ≤ 2 ^ K := by
      calc (128:Nat) = 2 ^ 7 := by norm_num
      _ ≤ 2 ^ K := Nat.pow_le_pow_right (by norm_num) hK7
    have pow_mono : ∀ {a b : Nat}, a ≤ b → (2:Nat) ^ a ≤ 2 ^ b :=
      fun h => Nat.pow_le_pow_right (by norm_num) h
    simp only [round_up_size, hn, Nat.shiftLeft_eq]
    by_cases hcase : 3 * 2 ^ K ≤ s
    · rw [if_pos hcase]
      refine ⟨by omega, by omega, ⟨K, Or.inr rfl⟩, ?_⟩
      rintro c ⟨m, hm | hm⟩ hsc
      · subst hm
        have hKm : K + 1 ≤ m := by
          by_contra hmk
          have : 2 ^ m ≤ 2 ^ K := pow_mono (by omega)
          omega
        have : 2 ^ (K + 1) ≤ 2 ^ m := pow_mono hKm
        rw [pow_succ] at this
        omega
      · subst hm
        have hKm : K ≤ m := by
          by_contra hmk
          have : 2 ^ (m + 1) ≤ 2 ^ K := pow_mono (by omega)
          rw [pow_succ] at this
          omega
        have : 2 ^ K ≤ 2 ^ m := pow_mono hKm
        omega
    · rw [if_neg hcase]
      refine ⟨by omega, by omega, ⟨K, Or.inl rfl⟩, ?_⟩
      rintro c ⟨m, hm | hm⟩ hsc
      · subst hm
        have hKm : K ≤ m := by
          by_contra hmk
          have : 2 ^ (m + 1) ≤ 2 ^ K := pow_mono (by omega)
          rw [pow_succ] at this
          omega
        have : 2 ^ K ≤ 2 ^ m := pow_mono hKm
        omega
      · subst hm
        have hKm : K ≤ m := by
          by_contra hmk
          have : 2 ^ (m + 1) ≤ 2 ^ K := pow_mono (by omega)
          rw [pow_succ] at this
          omega
        have : 2 ^ K ≤ 2 ^ m := pow_mono hKm
        omega

/-- Witness for C1 at `s = 257`. -/
theorem C1_round_up_size_witness :
    (257 : Nat) < 2 ^ 30 ∧
    ((257 < 256 → round_up_size 257 = 768) ∧
     (256 ≤ 257 → 257 < round_up_size 257 ∧ 256 ≤ round_up_size 257 ∧
       isSizeClass (round_up_size 257) ∧
       ∀ c, isSizeClass c → 257 < c → round_up_size 257 ≤ c)) :=
  ⟨by norm_num, C1_round_up_size 257 (by norm_num)⟩

/-! ## C3: request pool conservation -/

theorem pool_step_perm {s t : media_pool_state} (h : pool_step s t) :
    (t.free_reqs ++ t.in_flight).Perm (s.free_reqs ++ s.in_flight) := by
  cases h with
  | get r rest fl =>
      exact List.perm_middle
  | done r free fl1 fl2 =>
      have h1 : free ++ (fl1 ++ r :: fl2) = (free ++ fl1) ++ r :: fl2 := by
        simp [List.append_assoc]
      have h2 : (r :: free) ++ (fl1 ++ fl2) = r :: ((free ++ fl1) ++ fl2) := by
        simp [List.append_assoc]
      simp only [h1, h2]
      exact List.perm_middle.symm

theorem pool_reachable_perm {n : Nat} {s : media_pool_state} (h : pool_reachable n s) :
    (s.free_reqs ++ s.in_flight).Perm (List.range n) := by
  induction h with
  | refl => simp
  | tail _ hstep ih => exact (pool_step_perm hstep).trans ih

/-- C3: for every sequence of acquisitions (`media_request_get`) and
reclamations (`media_request_done`, reached from poll completion or
`media_request_abort`) on a pool created with `n` handles, at every quiescent
point the handles on the free chain together with the in-flight handles are
exactly the `n` created handles — so each handle is either free or in flight,
never both and never neither, and at most `n` handles are in flight. -/
theorem C3_pool_conservation (n : Nat) (s : media_pool_state)
    (h : pool_reachable n s) :
    s.in_flight.length ≤ n ∧
    ∀ r, r < n →
      (r ∈ s.free_reqs ∧ r ∉ s.in_flight) ∨
      (r ∉ s.free_reqs ∧ r ∈ s.in_flight) := by
  have hperm := pool_reachable_perm h
  have hlen : s.free_reqs.length + s.in_flight.length = n := by
    have := hperm.length_eq
    simpa using this
  have hnd : (s.free_reqs ++ s.in_flight).Nodup :=
    hperm.symm.nodup (List.nodup_range n)
  rw [List.nodup_append] at hnd
  refine ⟨by omega, ?_⟩
  intro r hr
  have hmem : r ∈ s.free_reqs ++ s.in_flight :=
    hperm.mem_iff.mpr (List.mem_range.mpr hr)
  rw [List.mem_append] at hmem
  rcases hmem with hf | hf
  · exact Or.inl ⟨hf, hnd.2.2 hf⟩
  · exact Or.inr ⟨fun hc => hnd.2.2 hc hf, hf⟩

/-- Witness for C3: pool of 2 handles, one `get` performed. -/
theorem C3_pool_conservation_witness :
    (media_pool_state.mk [1] [0]).in_flight.length ≤ 2 ∧
    ∀ r, r < 2 →
      (r ∈ (media_pool_state.mk [1] [0]).free_reqs ∧
       r ∉ (media_pool_state.mk [1] [0]).in_flight) ∨
      (r ∉ (media_pool_state.mk [1] [0]).free_reqs ∧
       r ∈ (media_pool_state.mk [1] [0]).in_flight) :=
  C3_pool_conservation 2 ⟨[1], [0]⟩ (by
    have hr : List.range 2 = [0, 1] := by decide
    unfold pool_reachable
    rw [hr]
    exact Relation.ReflTransGen.single (pool_step.get 0 [1] []))

/-! ## C8: in-use list round trip by primary-plane fd -/

theorem find_extract_fd_not_mem (l : List qent_base) (fd : Int)
    (h : ∀ be ∈ l, primary_fd be ≠ some fd) :
    find_extract_fd l fd = (none, l) := by
  induction l with
  | nil => rfl
  | cons be rest ih =>
      simp only [find_extract_fd]
      rw [if_neg (h be (by simp))]
      rw [ih (fun b hb => h b (by simp [hb]))]

theorem find_extract_fd_first_match (l1 l2 : List qent_base) (e : qent_base)
    (fd : Int) (h1 : ∀ be ∈ l1, primary_fd be ≠ some fd)
    (he : primary_fd e = some fd) :
    find_extract_fd (l1 ++ e :: l2) fd = (some e, l1 ++ l2) := by
  induction l1 with
  | nil => simp only [List.nil_append, find_extract_fd, if_pos he]
  | cons be rest ih =>
      simp only [List.cons_append, find_extract_fd, List.append_eq]
      rw [if_neg (h1 be (by simp))]
      rw [ih (fun b hb => h1 b (by simp [hb]))]

/-- C8: if the in-use list splits as `l1 ++ e :: l2` where `e` is the first
entry (scanning from the front) whose primary plane fd is `fd`, then
`queue_find_extract_fd` returns that identical entry and removes exactly it
from the in-use list; when no in-use entry matches, it returns NULL and leaves
the pool unchanged; and `queue_put_inuse` appends the given entry (same
identity, status set to `QENT_WAITING`) at the in-use tail, so an entry put
in-use is recovered by a later extract on its primary fd. -/
theorem C8_inuse_identity_roundtrip (bp : buf_pool) (fd : Int)
    (l1 l2 : List qent_base) (e : qent_base)
    (hsplit : bp.inuse = l1 ++ e :: l2)
    (hfirst : ∀ b ∈ l1, primary_fd b ≠ some fd)
    (hmatch : primary_fd e = some fd) :
    queue_find_extract_fd bp fd = (some e, { bp with inuse := l1 ++ l2 }) ∧
    (∀ fd2, (∀ b ∈ bp.inuse, primary_fd b ≠ some fd2) →
      queue_find_extract_fd bp fd2 = (none, bp)) ∧
    ∀ be, (queue_put_inuse bp be).inuse =
      bp.inuse ++ [{ be with status := .WAITING }] := by
  refine ⟨?_, ?_, fun be => rfl⟩
  · simp only [queue_find_extract_fd, hsplit,
      find_extract_fd_first_match l1 l2 e fd hfirst hmatch]
  · intro fd2 hnone
    simp only [queue_find_extract_fd, find_extract_fd_not_mem bp.inuse fd2 hnone]

/-- Witness for C8: two in-use entries, extract the second by its fd. -/
theorem C8_inuse_identity_roundtrip_witness :
    (buf_pool.mk 0 [] [⟨1, .WAITING, 0, [some ⟨5, 64, 3⟩], ⟨0, 0⟩⟩,
                       ⟨2, .WAITING, 1, [some ⟨7, 64, 4⟩], ⟨0, 0⟩⟩]).inuse =
      [⟨1, .WAITING, 0, [some ⟨5, 64, 3⟩], ⟨0, 0⟩⟩] ++
        ⟨2, .WAITING, 1, [some ⟨7, 64, 4⟩], ⟨0, 0⟩⟩ :: [] ∧
    (∀ b ∈ [(⟨1, .WAITING, 0, [some ⟨5, 64, 3⟩], ⟨0, 0⟩⟩ : qent_base)],
        primary_fd b ≠ some 7) ∧
    primary_fd ⟨2, .WAITING, 1, [some ⟨7, 64, 4⟩], ⟨0, 0⟩⟩ = some 7 ∧
    (queue_find_extract_fd
        (buf_pool.mk 0 [] [⟨1, .WAITING, 0, [some ⟨5, 64, 3⟩], ⟨0, 0⟩⟩,
                           ⟨2, .WAITING, 1, [some ⟨7, 64, 4⟩], ⟨0, 0⟩⟩]) 7 =
      (some ⟨2, .WAITING, 1, [some ⟨7, 64, 4⟩], ⟨0, 0⟩⟩,
       { buf_pool.mk 0 [] [⟨1, .WAITING, 0, [some ⟨5, 64, 3⟩], ⟨0, 0⟩⟩,
                           ⟨2, .WAITING, 1, [some ⟨7, 64, 4⟩], ⟨0, 0⟩⟩] with
          inuse := [⟨1, .WAITING, 0, [some ⟨5, 64, 3⟩], ⟨0, 0⟩⟩] ++ [] })) :=
  ⟨by decide, by decide, by decide,
   (C8_inuse_identity_roundtrip
      (buf_pool.mk 0 [] [⟨1, .WAITING, 0, [some ⟨5, 64, 3⟩], ⟨0, 0⟩⟩,
                         ⟨2, .WAITING, 1, [some ⟨7, 64, 4⟩], ⟨0, 0⟩⟩]) 7
      [⟨1, .WAITING, 0, [some ⟨5, 64, 3⟩], ⟨0, 0⟩⟩] []
      ⟨2, .WAITING, 1, [some ⟨7, 64, 4⟩], ⟨0, 0⟩⟩
      (by decide) (by decide) (by decide)).1⟩

/-! ## C9: `queue_put_free` resets recycled entries -/

theorem clear_lens_zeroes (dh : List (Option dmabuf_h))
    (hgap : no_plane_gap dh = true) :
    ∀ od ∈ clear_lens dh, plane_len_zero od = true := by
  induction dh with
  | nil => intro od h; simp [clear_lens] at h
  | cons hd rest ih =>
      cases hd with
      | some d =>
          intro od h
          simp only [clear_lens, List.mem_cons] at h
          rcases h with h | h
          · subst h; simp [plane_len_zero]
          · exact ih (by simpa [no_plane_gap] using hgap) od h
      | none =>
          intro od h
          simp only [clear_lens, List.mem_cons] at h
          simp only [no_plane_gap, List.all_eq_true] at hgap
          rcases h with h | h
          · subst h; simp [plane_len_zero]
          · have := hgap od h
            cases od with
            | none => simp [plane_len_zero]
            | some d => simp [Option.isNone] at this

/-- C9: every entry recycled through `queue_put_free` (planes populated
contiguously from slot 0, the ambient invariant) is appended to the free list
with its timestamp reset to zero and the recorded length of every populated
plane set to 0, and the free semaphore is posted; consequently a free list all
of whose entries were recycled this way contains only zero-timestamp,
zero-length entries — which is what any later `queue_get_free` hands out. -/
theorem C9_queue_put_free (bp : buf_pool) (be : qent_base)
    (hgap : no_plane_gap be.dh = true) :
    queue_put_free bp be =
      { bp with free := bp.free ++ [queue_put_free_ent be],
                free_sem := bp.free_sem + 1 } ∧
    qent_cleared (queue_put_free_ent be) ∧
    ((∀ e ∈ bp.free, qent_cleared e) →
      ∀ e ∈ (queue_put_free bp be).free, qent_cleared e) := by
  have hc : qent_cleared (queue_put_free_ent be) :=
    ⟨rfl, clear_lens_zeroes be.dh hgap⟩
  refine ⟨rfl, hc, ?_⟩
  intro hall e he
  simp only [queue_put_free, List.mem_append, List.mem_singleton] at he
  rcases he with he | he
  · exact hall e he
  · subst he; exact hc

/-- Witness for C9 at a concrete entry with one populated plane. -/
theorem C9_queue_put_free_witness :
    no_plane_gap ([some ⟨9, 512, 77⟩, none] : List (Option dmabuf_h)) = true ∧
    (queue_put_free (buf_pool.mk 0 [] [])
        ⟨4, .DONE, 2, [some ⟨9, 512, 77⟩, none], ⟨3, 4⟩⟩ =
      { buf_pool.mk 0 [] [] with
          free := [] ++ [queue_put_free_ent ⟨4, .DONE, 2, [some ⟨9, 512, 77⟩, none], ⟨3, 4⟩⟩],
          free_sem := 0 + 1 } ∧
     qent_cleared (queue_put_free_ent ⟨4, .DONE, 2, [some ⟨9, 512, 77⟩, none], ⟨3, 4⟩⟩) ∧
     ((∀ e ∈ (buf_pool.mk 0 [] []).free, qent_cleared e) →
       ∀ e ∈ (queue_put_free (buf_pool.mk 0 [] [])
           ⟨4, .DONE, 2, [some ⟨9, 512, 77⟩, none], ⟨3, 4⟩⟩).free, qent_cleared e)) :=
  ⟨by decide,
   C9_queue_put_free (buf_pool.mk 0 [] [])
     ⟨4, .DONE, 2, [some ⟨9, 512, 77⟩, none], ⟨3, 4⟩⟩ (by decide)⟩

/-! ## C10: `qent_dst_dmabuf` bounds check -/

/-- C10: for a destination entry whose plane array has the fixed
`VIDEO_MAX_PLANES` slots, `qent_dst_dmabuf` returns NULL for every plane index
≥ `VIDEO_MAX_PLANES` instead of reading out of bounds, and for every in-range
index returns exactly that slot's handle (itself possibly NULL for an
unpopulated plane). -/
theorem C10_qent_dst_dmabuf (be_dst : qent_dst) (plane : Nat)
    (hlen : be_dst.base.dh.length = VIDEO_MAX_PLANES) :
    (VIDEO_MAX_PLANES ≤ plane → qent_dst_dmabuf be_dst plane = none) ∧
    (plane < VIDEO_MAX_PLANES →
      ∃ h : plane < be_dst.base.dh.length,
        qent_dst_dmabuf be_dst plane = be_dst.base.dh.get ⟨plane, h⟩) := by
  constructor
  · intro h
    simp only [qent_dst_dmabuf, if_pos h]
  · intro h
    have hp : plane < be_dst.base.dh.length := by rw [hlen]; exact h
    refine ⟨hp, ?_⟩
    simp only [qent_dst_dmabuf, if_neg (by omega : ¬ VIDEO_MAX_PLANES ≤ plane)]
    exact (List.getD_eq_getElem be_dst.base.dh none hp).trans
      (List.get_eq_getElem be_dst.base.dh ⟨plane, hp⟩).symm

/-- Witness for C10: plane 1 of an 8-slot entry (an unpopulated slot, so the
returned handle is NULL but the access is in range). -/
theorem C10_qent_dst_dmabuf_witness :
    (qent_dst.mk ⟨2, .NEW, 0,
        [some ⟨3, 256, 10⟩, none, none, none, none, none, none, none],
        ⟨0, 0⟩⟩ false true).base.dh.length = VIDEO_MAX_PLANES ∧
    ((VIDEO_MAX_PLANES ≤ 1 →
        qent_dst_dmabuf (qent_dst.mk ⟨2, .NEW, 0,
          [some ⟨3, 256, 10⟩, none, none, none, none, none, none, none],
          ⟨0, 0⟩⟩ false true) 1 = none) ∧
     (1 < VIDEO_MAX_PLANES →
        ∃ h : 1 < (qent_dst.mk ⟨2, .NEW, 0,
            [some ⟨3, 256, 10⟩, none, none, none, none, none, none, none],
            ⟨0, 0⟩⟩ false true).base.dh.length,
          qent_dst_dmabuf (qent_dst.mk ⟨2, .NEW, 0,
              [some ⟨3, 256, 10⟩, none, none, none, none, none, none, none],
              ⟨0, 0⟩⟩ false true) 1 =
            (qent_dst.mk ⟨2, .NEW, 0,
              [some ⟨3, 256, 10⟩, none, none, none, none, none, none, none],
              ⟨0, 0⟩⟩ false true).base.dh.get ⟨1, h⟩)) :=
  ⟨by decide,
   C10_qent_dst_dmabuf (qent_dst.mk ⟨2, .NEW, 0,
       [some ⟨3, 256, 10⟩, none, none, none, none, none, none, none],
       ⟨0, 0⟩⟩ false true) 1 (by decide)⟩

/-! ## C4: `qent_dst_wait` result mapping and double-wait rejection point -/

/-- C4: `qent_dst_wait` maps the posted status to its result — success iff the
completion path posted `QENT_DONE`, decoding-error iff it posted `QENT_ERROR`,
operation-failed for every other status — with no rejection logic of its own;
and an entry whose wait flag is already set is rejected by
`mediabufs_start_request` (via the `qe_dst_waiting` check) at submission time:
the call fails with operation-failed and the destination queue is untouched. -/
theorem C4_wait_result_and_double_wait (st : mbc_state) (pmreq : Option Nat)
    (psrc_be : Option qent_base) (d : qent_dst) (f1 f2 f3 : Bool)
    (hw : d.waiting = true) :
    (∀ estat, (qent_dst_wait_result estat = .SUCCESS ↔ estat = .DONE) ∧
      (qent_dst_wait_result estat = .ERROR_DECODING_ERROR ↔ estat = .ERROR) ∧
      (qent_dst_wait_result estat ≠ .SUCCESS →
        qent_dst_wait_result estat ≠ .ERROR_DECODING_ERROR →
        qent_dst_wait_result estat = .ERROR_OPERATION_FAILED)) ∧
    (mediabufs_start_request st pmreq psrc_be (some d) f1 f2 f3).status =
      .ERROR_OPERATION_FAILED ∧
    (mediabufs_start_request st pmreq psrc_be (some d) f1 f2 f3).st.dst_q =
      st.dst_q := by
  refine ⟨fun estat => by cases estat <;> simp [qent_dst_wait_result], ?_, ?_⟩ <;>
    cases psrc_be <;>
      simp [mediabufs_start_request, qe_dst_waiting, hw, start_request_fail]

/-- Witness for C4 at a concrete already-waiting destination entry. -/
theorem C4_wait_result_and_double_wait_witness :
    (qent_dst.mk ⟨2, .NEW, 0, [some ⟨3, 64, 4⟩], ⟨0, 0⟩⟩ true true).waiting = true ∧
    ((∀ estat, (qent_dst_wait_result estat = .SUCCESS ↔ estat = .DONE) ∧
      (qent_dst_wait_result estat = .ERROR_DECODING_ERROR ↔ estat = .ERROR) ∧
      (qent_dst_wait_result estat ≠ .SUCCESS →
        qent_dst_wait_result estat ≠ .ERROR_DECODING_ERROR →
        qent_dst_wait_result estat = .ERROR_OPERATION_FAILED)) ∧
     (mediabufs_start_request ⟨[], ⟨0, [], []⟩, ⟨0, [], []⟩, false, 0⟩ (some 7)
        (some ⟨1, .NEW, 0, [some ⟨9, 64, 5⟩], ⟨0, 0⟩⟩)
        (some (qent_dst.mk ⟨2, .NEW, 0, [some ⟨3, 64, 4⟩], ⟨0, 0⟩⟩ true true))
        false false false).status = .ERROR_OPERATION_FAILED ∧
     (mediabufs_start_request ⟨[], ⟨0, [], []⟩, ⟨0, [], []⟩, false, 0⟩ (some 7)
        (some ⟨1, .NEW, 0, [some ⟨9, 64, 5⟩], ⟨0, 0⟩⟩)
        (some (qent_dst.mk ⟨2, .NEW, 0, [some ⟨3, 64, 4⟩], ⟨0, 0⟩⟩ true true))
        false false false).st.dst_q = (⟨0, [], []⟩ : buf_pool)) :=
  ⟨rfl,
   C4_wait_result_and_double_wait ⟨[], ⟨0, [], []⟩, ⟨0, [], []⟩, false, 0⟩ (some 7)
     (some ⟨1, .NEW, 0, [some ⟨9, 64, 5⟩], ⟨0, 0⟩⟩)
     (qent_dst.mk ⟨2, .NEW, 0, [some ⟨3, 64, 4⟩], ⟨0, 0⟩⟩ true true)
     false false false rfl⟩

/-! ## C5: `qent_dst_free` weak-link dispatch -/

/-- C5: `qent_dst_free` always NULLs the caller's pointer; when the weak link
to the owning controller can still be locked it returns the entry (state
cleared by `queue_put_free`) to the controller's destination free list; when
the lock fails because the controller was torn down it deletes the entry
outright and never touches the controller's queue. -/
theorem C5_qent_dst_free (d : qent_dst) (ctl : buf_pool) :
    (qent_dst_free (some d) ctl).pbe_dst = none ∧
    (d.mbc_wl_alive = true →
      (qent_dst_free (some d) ctl).deleted = false ∧
      (qent_dst_free (some d) ctl).ctl_dst.free =
        ctl.free ++ [queue_put_free_ent d.base] ∧
      (qent_dst_free (some d) ctl).ctl_dst.free_sem = ctl.free_sem + 1) ∧
    (d.mbc_wl_alive = false →
      (qent_dst_free (some d) ctl).deleted = true ∧
      (qent_dst_free (some d) ctl).ctl_dst = ctl) := by
  cases h : d.mbc_wl_alive <;> simp [qent_dst_free, queue_put_free, h]

/-- Witness for C5: a dead-controller entry is deleted locally. -/
theorem C5_qent_dst_free_witness :
    (qent_dst_free (some (qent_dst.mk ⟨2, .DONE, 0, [some ⟨3, 64, 4⟩], ⟨1, 2⟩⟩
        false false)) (buf_pool.mk 0 [] [])).pbe_dst = none ∧
    ((qent_dst.mk ⟨2, .DONE, 0, [some ⟨3, 64, 4⟩], ⟨1, 2⟩⟩
        false false).mbc_wl_alive = true →
      (qent_dst_free (some (qent_dst.mk ⟨2, .DONE, 0, [some ⟨3, 64, 4⟩], ⟨1, 2⟩⟩
          false false)) (buf_pool.mk 0 [] [])).deleted = false ∧
      (qent_dst_free (some (qent_dst.mk ⟨2, .DONE, 0, [some ⟨3, 64, 4⟩], ⟨1, 2⟩⟩
          false false)) (buf_pool.mk 0 [] [])).ctl_dst.free =
        (buf_pool.mk 0 [] []).free ++
          [queue_put_free_ent ⟨2, .DONE, 0, [some ⟨3, 64, 4⟩], ⟨1, 2⟩⟩] ∧
      (qent_dst_free (some (qent_dst.mk ⟨2, .DONE, 0, [some ⟨3, 64, 4⟩], ⟨1, 2⟩⟩
          false false)) (buf_pool.mk 0 [] [])).ctl_dst.free_sem =
        (buf_pool.mk 0 [] []).free_sem + 1) ∧
    ((qent_dst.mk ⟨2, .DONE, 0, [some ⟨3, 64, 4⟩], ⟨1, 2⟩⟩
        false false).mbc_wl_alive = false →
      (qent_dst_free (some (qent_dst.mk ⟨2, .DONE, 0, [some ⟨3, 64, 4⟩], ⟨1, 2⟩⟩
          false false)) (buf_pool.mk 0 [] [])).deleted = true ∧
      (qent_dst_free (some (qent_dst.mk ⟨2, .DONE, 0, [some ⟨3, 64, 4⟩], ⟨1, 2⟩⟩
          false false)) (buf_pool.mk 0 [] [])).ctl_dst = buf_pool.mk 0 [] []) :=
  C5_qent_dst_free (qent_dst.mk ⟨2, .DONE, 0, [some ⟨3, 64, 4⟩], ⟨1, 2⟩⟩ false false)
    (buf_pool.mk 0 [] [])

/-! ## C6: stream-off error accumulation -/

/-- C6 [counterexample]: after a stream-on in which the destination direction
failed (`mediabufs_stream_on` rolls the source back off and leaves
`stream_on = false`), a subsequent `mediabufs_stream_off` issues NO
`set_stream` call at all and returns success — even with both disables primed
to fail — contradicting the claim that the off-sequence "attempts to disable
… the source and destination directions" and "reports failure" in particular
after such a stream-on. -/
theorem C6_counterexample :
    (mediabufs_stream_on false true false).status = .ERROR_OPERATION_FAILED ∧
    (mediabufs_stream_on false true false).stream_on = false ∧
    mediabufs_stream_off (mediabufs_stream_on false true false).stream_on
        false false = ⟨[], false, .SUCCESS⟩ := by
  decide

/-- C6 [amended]: while streaming is on, `mediabufs_stream_off` disables the
source and destination directions independently, accumulating rather than
short-circuiting errors — both directions are always attempted and the status
reports failure iff either disable failed.  After a stream-on in which one
direction failed, however, `stream_on` is false (the on-sequence already
rolled back the direction it had enabled), so stream-off attempts neither
direction and returns success. -/
theorem C6_stream_off_accumulates (src_off_ok dst_off_ok : Bool) :
    (mediabufs_stream_off true src_off_ok dst_off_ok).calls =
      [(.src, false), (.dst, false)] ∧
    ((mediabufs_stream_off true src_off_ok dst_off_ok).status = .SUCCESS ↔
      src_off_ok = true ∧ dst_off_ok = true) ∧
    ((mediabufs_stream_off true src_off_ok dst_off_ok).status =
        .ERROR_OPERATION_FAILED ↔ src_off_ok = false ∨ dst_off_ok = false) ∧
    (mediabufs_stream_off true src_off_ok dst_off_ok).stream_on = false ∧
    (∀ su s1 d1, (mediabufs_stream_on su s1 d1).status = .ERROR_OPERATION_FAILED →
      (mediabufs_stream_on su s1 d1).stream_on = false ∧
      mediabufs_stream_off (mediabufs_stream_on su s1 d1).stream_on
        src_off_ok dst_off_ok = ⟨[], false, .SUCCESS⟩) := by
  cases src_off_ok <;> cases dst_off_ok <;> decide

/-- Witness for C6 with the source disable failing. -/
theorem C6_stream_off_accumulates_witness :
    (mediabufs_stream_off true false true).calls =
      [(.src, false), (.dst, false)] ∧
    ((mediabufs_stream_off true false true).status = .SUCCESS ↔
      false = true ∧ true = true) ∧
    ((mediabufs_stream_off true false true).status =
        .ERROR_OPERATION_FAILED ↔ false = false ∨ true = false) ∧
    (mediabufs_stream_off true false true).stream_on = false ∧
    (∀ su s1 d1, (mediabufs_stream_on su s1 d1).status = .ERROR_OPERATION_FAILED →
      (mediabufs_stream_on su s1 d1).stream_on = false ∧
      mediabufs_stream_off (mediabufs_stream_on su s1 d1).stream_on
        false true = ⟨[], false, .SUCCESS⟩) :=
  C6_stream_off_accumulates false true

/-! ## C7: `fmt_set` fails closed -/

/-- C7: `fmt_set` returns unsupported-buffer-type exactly when `VIDIOC_S_FMT`
succeeded but the driver-returned width or height is smaller than requested or
the returned pixel format differs from the requested one (for both the
multi-planar and single-planar layouts), and returns success exactly when the
driver granted at least what was asked; beyond writing the driver's reply into
the caller's format out-parameter it commits no other state. -/
theorem C7_fmt_set (multiplanar ioctl_ok : Bool) (pixfmt width height : Nat)
    (resp : v4l2_pix_resp) :
    ((fmt_set multiplanar ioctl_ok pixfmt width height resp).1 =
        .ERROR_UNSUPPORTED_BUFFERTYPE ↔
      ioctl_ok = true ∧
        (resp.width < width ∨ resp.height < height ∨ resp.pixelformat ≠ pixfmt)) ∧
    ((fmt_set multiplanar ioctl_ok pixfmt width height resp).1 = .SUCCESS ↔
      ioctl_ok = true ∧
        width ≤ resp.width ∧ height ≤ resp.height ∧ resp.pixelformat = pixfmt) := by
  cases ioctl_ok
  · cases multiplanar <;> simp [fmt_set]
  · cases multiplanar <;>
      by_cases h : resp.width < width ∨ resp.height < height ∨ resp.pixelformat ≠ pixfmt <;>
        simp [fmt_set, h] <;> omega

/-- Witness for C7: driver grants a smaller height. -/
theorem C7_fmt_set_witness :
    ((fmt_set true true 42 1920 1080 ⟨1920, 720, 42⟩).1 =
        .ERROR_UNSUPPORTED_BUFFERTYPE ↔
      true = true ∧
        ((1920 : Nat) < 1920 ∨ (720 : Nat) < 1080 ∨ (42 : Nat) ≠ 42)) ∧
    ((fmt_set true true 42 1920 1080 ⟨1920, 720, 42⟩).1 = .SUCCESS ↔
      true = true ∧
        (1920 : Nat) ≤ 1920 ∧ (1080 : Nat) ≤ 720 ∧ (42 : Nat) = 42) :=
  C7_fmt_set true true 42 1920 1080 ⟨1920, 720, 42⟩

/-! ## C2: `mediabufs_start_request` unwind on source-queue failure -/

/-- C2 [code_bug evidence]: concrete run of `mediabufs_start_request` in which
the destination `VIDIOC_QBUF` succeeds and the source `VIDIOC_QBUF` fails.
The caller's request and source pointers are NULLed (consumed), the request is
aborted back onto the pool's free chain, the source entry is returned to the
source free list, the destination entry is woken as if completed
(`waiting = false`) and operation-failed is returned — but the partial side
effects are NOT fully unwound: the destination entry stays on the destination
in-use list (`st.dst_q.inuse ≠ []`), still queued to the kernel, exactly the
deficiency the code's own `TODO` comment at line 851 records. -/
theorem C2_src_queue_fail_no_unwind :
    mediabufs_start_request
        ⟨[], ⟨0, [], []⟩, ⟨0, [], []⟩, false, 0⟩
        (some 7)
        (some ⟨1, .NEW, 0, [some ⟨10, 4096, 100⟩], ⟨5, 6⟩⟩)
        (some ⟨⟨2, .NEW, 1, [some ⟨20, 4096, 50⟩], ⟨7, 8⟩⟩, false, true⟩)
        false true false =
      { pmreq := none
        psrc_be := none
        st := ⟨[7],
               ⟨1, [⟨1, .NEW, 0, [some ⟨10, 4096, 0⟩], ⟨0, 0⟩⟩], []⟩,
               ⟨0, [], [⟨2, .WAITING, 1, [some ⟨20, 4096, 0⟩], ⟨0, 0⟩⟩]⟩,
               false, 0⟩
        dst_be := some ⟨⟨2, .WAITING, 1, [some ⟨20, 4096, 0⟩], ⟨0, 0⟩⟩, false, true⟩
        status := .ERROR_OPERATION_FAILED } ∧
    (mediabufs_start_request
        ⟨[], ⟨0, [], []⟩, ⟨0, [], []⟩, false, 0⟩
        (some 7)
        (some ⟨1, .NEW, 0, [some ⟨10, 4096, 100⟩], ⟨5, 6⟩⟩)
        (some ⟨⟨2, .NEW, 1, [some ⟨20, 4096, 50⟩], ⟨7, 8⟩⟩, false, true⟩)
        false true false).st.dst_q.inuse ≠ [] := by
  decide

end V4l2ReqMedia
